import Mathlib

/-!
Verification of the interview/assessment session workflow engine
(backend/state_manager.py, backend/feedback.py, backend/roadmap.py,
backend/generator.py, backend/api/assessment.py, backend/api/interview.py).

The Python code is shallowly embedded: each dict-shaped state becomes a
structure, the LangGraph compiled graph becomes an explicit routing function
over the conditional-edge maps declared in `_create_interview_graph`, the
database (SQLAlchemy session registry + chat-message log) becomes an explicit
`Db` value threaded through the operations, and every LLM collaborator call
becomes a parameter of type `Except String _` (the `.error` case models the
Python call raising an exception).  Wall-clock timestamps (`datetime.now`)
are not modeled; float arithmetic on scores is modeled with exact rationals.
-/

namespace CareerAdvisor

/-- One item of the list returned by `feedback_generator` (feedback.py):
a Python dict `{"feedback": str, "marks": int}`. -/
structure FeedbackItem where
  feedback : String
  marks : Int
deriving DecidableEq, Repr

/-- A value stored in the dynamically typed `state["feedback"]` list.
`_load_state_from_db` stores plain strings (the message contents) there,
while the `generate_feedback` graph node stores the dicts returned by
`feedback_generator`.  The embedding keeps both shapes. -/
inductive FeedbackVal where
  | str (s : String)
  | item (it : FeedbackItem)
deriving DecidableEq, Repr

/-- An entry of `state["chat_history"]` (type tag and content; the
`timestamp`, `question_number` and `marks` fields are not needed by any
claim and are omitted). -/
structure ChatEntry where
  type : String
  content : String
deriving DecidableEq, Repr

/-- The LangGraph `InterviewState` dict (models.py / state_manager.py).
Identification fields (`thread_id`, `session_id`, `user_id`) are constant
through every operation modeled here and are omitted. -/
structure InterviewState where
  role : String
  company : String
  resume_text : String
  questions : List String
  current_question : Nat
  answers : List String
  feedback : List FeedbackVal
  marks : List Int
  total_score : Rat
  average_score : Rat
  roadmap : String
  status : String
  chat_history : List ChatEntry
deriving DecidableEq, Repr

/-- `should_continue` (state_manager.py lines 250-262): the routing
predicate evaluated after each node.  Python truthiness: an empty list and
an empty string are falsy. -/
def should_continue (state : InterviewState) : String :=
  if state.answers.length < 3 then "wait_for_answer"
  else if state.feedback.isEmpty then "generate_feedback"
  else if state.roadmap = "" then "generate_roadmap"
  else "end"

/-- The routing outcomes of the spec (section 4.1 routing predicate). -/
inductive Route where
  | waitForInput
  | continueToScoring
  | continueToSynthesis
  | terminal
deriving DecidableEq, Repr

/-- Modelled from the words of the spec (section 4.1): the routing predicate as
the specification states it, in its stated priority order, over the three
observations it mentions (answers recorded, feedback computed, summary
present).  Used only to compare with `should_continue`. -/
def routingSpec (answersRecorded : Nat) (feedbackComputed : Bool)
    (summaryPresent : Bool) : Route :=
  if answersRecorded < 3 then Route.waitForInput
  else if !feedbackComputed then Route.continueToScoring
  else if !summaryPresent then Route.continueToSynthesis
  else Route.terminal

/-- The correspondence between the routing labels of the code and the
routing outcomes of the spec. -/
def routeOfLabel : String → Option Route
  | "wait_for_answer" => some Route.waitForInput
  | "generate_feedback" => some Route.continueToScoring
  | "generate_roadmap" => some Route.continueToSynthesis
  | "end" => some Route.terminal
  | _ => none

/-- The external LLM collaborators, as outcome parameters.  `.error e`
models the underlying Python call raising an exception whose message is
`e`; `.ok v` models it returning `v`. -/
structure Collab where
  /-- Outcome of the structured question-generation call in
  `generate_question` (generator.py): the `questions` field of the parsed
  `InterviewQuestions` result. -/
  genQuestions : Except String (List String)
  /-- Outcome of the `feedback_llm.invoke` call made in feedback.py by the per-pair `generate_feedback` for the i-th question/answer pair
  (0-based): the response content string. -/
  scoreResp : Nat → Except String String
  /-- Outcome of the `generator_llm.invoke` call made in roadmap.py by `generate_roadmap`: the response content string. -/
  roadmapResp : Except String String

/-- `generate_question` (generator.py): invokes the structured generator
and returns the dict `{"question": response.questions}` — note the key is
the singular `"question"`.  A raised exception propagates (there is no
try/except in generator.py). -/
def generate_question (c : Collab) : Except String (List (String × List String)) :=
  c.genQuestions.map (fun qs => [("question", qs)])

/-- Python `dict.get(key, default)` over an association-list model of a
string-keyed dict. -/
def dictGet (d : List (String × List String)) (key : String)
    (dflt : List String) : List String :=
  match d.find? (fun p => p.fst = key) with
  | some p => p.snd
  | none => dflt

/-- The hard-coded fallback question list in the `start_interview` node
(state_manager.py line 123). -/
def fallbackQuestions : List String :=
  ["Tell me about yourself.", "What are your strengths?", "Why do you want this role?"]

/-- The `start_interview` graph node (state_manager.py lines 110-151):
calls `generate_question`, reads `question_result.get("questions", [])`
(which never finds the `"question"` key the generator actually returns),
substitutes the fallback list when fewer than 3 questions were obtained,
and unconditionally overwrites `questions`, `current_question`, `answers`,
`feedback`, `marks`, `status` and `chat_history` of the incoming state. -/
def start_interview (c : Collab) (state : InterviewState) :
    Except String InterviewState := do
  let question_result ← generate_question c
  let qs0 := dictGet question_result "questions" []
  let questions := if qs0.length < 3 then fallbackQuestions else qs0
  let st : InterviewState :=
    { state with
      questions := questions
      current_question := 0
      answers := []
      feedback := []
      marks := []
      status := "in_progress"
      chat_history :=
        [⟨"system", "Interview started for " ++ state.role ++ " position at " ++ state.company⟩] }
  return { st with
           chat_history := st.chat_history ++ questions.map (fun q => ⟨"question", q⟩) }

/-- The `process_answer` graph node (state_manager.py lines 153-171). -/
def process_answer (state : InterviewState) : InterviewState :=
  let current_q := state.current_question
  let answers := state.answers
  if current_q < answers.length then
    let answer := answers.getD current_q ""
    { state with
      chat_history := state.chat_history ++ [⟨"answer", answer⟩]
      current_question := current_q + 1 }
  else state

/-- Value of a list of decimal digit characters, `none` if the list is
empty or holds a non-digit. -/
def digitsVal? (l : List Char) : Option Nat :=
  if l.isEmpty then none
  else if l.all Char.isDigit then
    some (l.foldl (fun acc c => acc * 10 + (c.toNat - 48)) 0)
  else none

/-- Python `int(s)` on a whitespace-free token: optional sign followed by
digits, `none` when the parse raises `ValueError`.  (Python additionally
accepts underscore digit grouping, which no LLM score token uses; it is
not modeled.) -/
def pyInt? (s : String) : Option Int :=
  match s.data with
  | '-' :: rest => (digitsVal? rest).map (fun n => -(n : Int))
  | '+' :: rest => (digitsVal? rest).map (fun n => (n : Int))
  | l => (digitsVal? l).map (fun n => (n : Int))

/-- Whether `sep` occurs in `text` (Python `sep in text`). -/
def hasSubstr (sep text : String) : Bool :=
  1 < (text.splitOn sep).length

/-- Python `text.split(sep, 1)[1]`: everything after the first occurrence
of `sep` (meaningful only when `sep` occurs). -/
def afterFirst (sep text : String) : String :=
  match text.splitOn sep with
  | [] => ""
  | _ :: rest => String.intercalate sep rest

/-- Python `text.split(sep)[0]`: everything before the first occurrence of
`sep`, or all of `text` when `sep` does not occur. -/
def beforeFirst (sep text : String) : String :=
  (text.splitOn sep).headD text

/-- Python `s.split()[0]`: first whitespace-delimited token, `none` when
`s` holds only whitespace (in Python an `IndexError`). -/
def firstToken (s : String) : Option String :=
  ((s.split Char.isWhitespace).filter (fun t => t ≠ "")).head?

/-- feedback.py `generate_feedback` (lines 5-57): scores a single
question/answer pair.  `llm` is the outcome of the `feedback_llm.invoke`
call; `.error` covers both the call raising and the uncaught `IndexError`
raised at line 39 when nothing follows the `Score:` tag, since both land
in the same `except Exception` handler. -/
def generate_feedback (llm : Except String String)
    (question answer _role _company : String) : FeedbackItem :=
  if question = "" ∨ answer = "" ∨ answer = "[No answer provided]" then
    ⟨"No answer was provided for this question.", 0⟩
  else
    match llm with
    | .error _ => ⟨"An error occurred while generating feedback.", 5⟩
    | .ok content =>
      let feedback_text := content.trim
      let mkItem : Int → FeedbackItem := fun score =>
        let fb := ((beforeFirst "Score:" feedback_text).replace "Feedback:" "").trim
        ⟨if fb = "" then "No specific feedback was generated." else fb, score⟩
      if hasSubstr "Score:" feedback_text then
        match firstToken (afterFirst "Score:" feedback_text).trim with
        | none =>
          -- line 39 raises IndexError, caught only by the outer handler
          ⟨"An error occurred while generating feedback.", 5⟩
        | some score_part =>
          match pyInt? score_part with
          | some v => mkItem (min 10 (max 1 v))
          | none => mkItem 5
      else mkItem 5

/-- feedback.py `feedback_generator` (lines 59-90): feedback for all three
question/answer pairs, or the single not-enough-data item. -/
def feedback_generator (c : Collab) (question answer : List String)
    (role company : String) : List FeedbackItem :=
  if question.length < 3 ∨ answer.length < 3 then
    [⟨"Not enough questions or answers to generate feedback.", 0⟩]
  else
    (List.range 3).map (fun i =>
      generate_feedback (c.scoreResp i) (question.getD i "No question provided")
        (answer.getD i "No answer provided") role company)

/-- Whether a dynamically typed feedback entry is a plain string. -/
def feedbackValIsStr : FeedbackVal → Bool
  | .str _ => true
  | .item _ => false

/-- roadmap.py `generate_roadmap`: returns the roadmap text (the
`"roadmap"` value of the returned dict, which is always present).  When a
feedback entry is a plain string, `item.get` raises an `AttributeError`
caught by the feedback-summary handler; the fixed message below stands for
the `str(e)` interpolation of that handler. -/
def generate_roadmap (c : Collab) (feedback : List FeedbackVal) : String :=
  if feedback.isEmpty then "No feedback available to generate a roadmap."
  else if feedback.any feedbackValIsStr then
    "Error generating roadmap: Error processing feedback: attribute error"
  else
    match c.roadmapResp with
    | .error e =>
      "# Error Generating Roadmap\n\nAn error occurred while generating the roadmap: "
        ++ e ++ "\n\nPlease try again later or contact support if the issue persists."
    | .ok content =>
      if content.trim = "" then
        "# Learning Roadmap\n\nCould not generate a roadmap. The generated content was empty. Please try again."
      else content

/-- The `generate_feedback` graph node (state_manager.py lines 173-214). -/
def generate_feedback_node (c : Collab) (state : InterviewState) : InterviewState :=
  if 3 ≤ state.answers.length then
    let feedback_items :=
      feedback_generator c state.questions state.answers state.role state.company
    let marks := feedback_items.map (fun it => it.marks)
    let total_score : Rat := ((marks.sum : Int) : Rat)
    let avg_score : Rat := if marks.isEmpty then 0 else total_score / (marks.length : Rat)
    { state with
      feedback := feedback_items.map FeedbackVal.item
      marks := marks
      total_score := total_score
      average_score := avg_score
      chat_history :=
        state.chat_history ++ feedback_items.map (fun it => ⟨"feedback", it.feedback⟩) }
  else state

/-- The `generate_roadmap` graph node (state_manager.py lines 216-248,
`generate_roadmap_step`).  The `completed_at` wall-clock stamp is not
modeled. -/
def generate_roadmap_step (c : Collab) (state : InterviewState) : InterviewState :=
  if state.feedback.isEmpty then state
  else
    let roadmap_content := generate_roadmap c state.feedback
    { state with
      roadmap := roadmap_content
      status := "completed"
      chat_history := state.chat_history ++ [⟨"roadmap", roadmap_content⟩] }

/-- Execution continuing at the `generate_feedback` node, following the
conditional-edge map declared for it (state_manager.py lines 299-306):
only `generate_roadmap` and `end` are mapped; any other label returned by
`should_continue` would make LangGraph raise. -/
def graphFromFeedback (c : Collab) (s : InterviewState) : Except String InterviewState :=
  let s1 := generate_feedback_node c s
  match should_continue s1 with
  | "generate_roadmap" => .ok (generate_roadmap_step c s1)
  | "end" => .ok s1
  | other => .error ("unmapped conditional edge from generate_feedback: " ++ other)

/-- Execution continuing at the `process_answer` node, following its
conditional-edge map (state_manager.py lines 288-297): `wait_for_answer`
maps to END. -/
def graphFromProcess (c : Collab) (s : InterviewState) : Except String InterviewState :=
  let s1 := process_answer s
  match should_continue s1 with
  | "wait_for_answer" => .ok s1
  | "generate_feedback" => graphFromFeedback c s1
  | "generate_roadmap" => .ok (generate_roadmap_step c s1)
  | "end" => .ok s1
  | other => .error ("unmapped conditional edge from process_answer: " ++ other)

/-- `self.graph.invoke(state)`: the compiled LangGraph starts at the
`start_interview` entry point (state_manager.py line 274) and follows the
conditional-edge map declared for it (lines 277-286); the
`generate_roadmap` node has an unconditional edge to END (line 308). -/
def graphInvoke (c : Collab) (state : InterviewState) : Except String InterviewState := do
  let s1 ← start_interview c state
  match should_continue s1 with
  | "wait_for_answer" => graphFromProcess c s1
  | "generate_feedback" => graphFromFeedback c s1
  | "generate_roadmap" => .ok (generate_roadmap_step c s1)
  | "end" => .ok s1
  | other => .error ("unmapped conditional edge from start_interview: " ++ other)

/-- A `ChatMessage` row (models.py): the append-only event log entry.
`created_at` ordering is modeled by list order; `session_id`/`thread_id`
are constant for the single session being modeled and omitted. -/
structure ChatMessage where
  message_type : String
  role : String
  content : String
  question_number : Option Nat
  marks : Option Int
deriving DecidableEq, Repr

/-- An `InterviewSession` row: the mutable session-registry record.
Timestamps are not modeled; `completed_at` presence is tracked as a flag
where needed by no claim, so it is omitted. -/
structure InterviewSession where
  role : String
  company : String
  resume_text : Option String
  status : String
  total_score : Option Rat
  average_score : Option Rat
deriving DecidableEq, Repr

/-- The durable store for one interview session: the registry record (if
the row exists) and the ordered chat-message log. -/
structure Db where
  session : Option InterviewSession
  messages : List ChatMessage
deriving DecidableEq, Repr

/-- Accumulator of the reconstruction fold in `_load_state_from_db`
(state_manager.py lines 41-58). -/
structure ReconAcc where
  questions : List String
  answers : List String
  feedback : List FeedbackVal
  marks : List Int
  current_question : Nat
  question_count : Nat
deriving DecidableEq, Repr

/-- One step of the reconstruction fold over the ordered messages. -/
def reconStep (acc : ReconAcc) (msg : ChatMessage) : ReconAcc :=
  if msg.message_type = "question" then
    { acc with
      questions := acc.questions ++ [msg.content]
      question_count := acc.question_count + 1 }
  else if msg.message_type = "answer" then
    { acc with
      answers := acc.answers ++ [msg.content]
      current_question := acc.question_count }
  else if msg.message_type = "feedback" then
    { acc with
      feedback := acc.feedback ++ [FeedbackVal.str msg.content]
      marks := match msg.marks with
               | some m => acc.marks ++ [m]
               | none => acc.marks }
  else acc

/-- The `while len(questions) < 3` padding loop of `_load_state_from_db`
(state_manager.py lines 61-62), in closed form: each iteration appends
`"Interview question {len+1}"` until the length reaches 3. -/
def padQuestions (qs : List String) : List String :=
  qs ++ (List.range (3 - qs.length)).map
    (fun i => "Interview question " ++ toString (qs.length + i + 1))

/-- `_load_state_from_db` (state_manager.py lines 26-85): `none` when no
registry row exists; otherwise the state reconstructed by folding the
messages, with questions padded to 3, `roadmap` left empty (roadmap
messages are ignored by the fold), and `status`/scores copied from the
registry row.  The reconstructed dict carries no `chat_history` key,
modeled as the empty list. -/
def load_state_from_db (db : Db) : Option InterviewState :=
  db.session.map (fun sess =>
    let acc : ReconAcc := db.messages.foldl reconStep ⟨[], [], [], [], 0, 0⟩
    { role := sess.role
      company := sess.company
      resume_text := sess.resume_text.getD ""
      questions := padQuestions acc.questions
      current_question := acc.current_question
      answers := acc.answers
      feedback := acc.feedback
      marks := acc.marks
      total_score := sess.total_score.getD 0
      average_score := sess.average_score.getD 0
      roadmap := ""
      status := sess.status
      chat_history := [] })

/-- The `while len(answers) < question_number` padding loop of
`submit_answer` (state_manager.py lines 400-401), in closed form: each
iteration appends `""` until the length reaches `question_number`. -/
def padAnswers (answers : List String) (question_number : Nat) : List String :=
  answers ++ List.replicate (question_number - answers.length) ""

/-- The answer-slot update of `submit_answer` (state_manager.py lines
399-408).  For `question_number = 0` Python evaluates `answers[-1]`,
which sets the last element or raises `IndexError` on an empty list. -/
def setAnswer (answers : List String) (question_number : Nat) (answer : String) :
    Except String (List String) :=
  let a := padAnswers answers question_number
  if question_number = 0 then
    match a with
    | [] => .error "IndexError: list assignment index out of range"
    | _ => .ok (a.set (a.length - 1) answer)
  else if question_number ≤ a.length then .ok (a.set (question_number - 1) answer)
  else .ok (a ++ [answer])

/-- Result of `create_interview_session` (state_manager.py lines 312-385):
the `questions`/`status` of the returned dict, the state cached in
`self.states`, and the resulting durable store. -/
structure CreateResult where
  questions : List String
  status : String
  cached : InterviewState
  db : Db
deriving DecidableEq, Repr

/-- `create_interview_session` (state_manager.py lines 312-385): creates
the registry row with status `"active"`, builds the initial state, invokes
the graph (a raised exception propagates), caches the result, and appends
one `question` message per generated question (up to 3). -/
def create_interview_session (c : Collab) (role company resume_text : String) :
    Except String CreateResult := do
  let sess : InterviewSession :=
    { role := role, company := company, resume_text := some resume_text
      status := "active", total_score := none, average_score := none }
  let initial : InterviewState :=
    { role := role, company := company, resume_text := resume_text
      questions := [], answers := [], current_question := 0
      feedback := [], marks := [], total_score := 0, average_score := 0
      roadmap := "", status := "started", chat_history := [] }
  let result ← graphInvoke c initial
  let questionMessages : List ChatMessage :=
    if result.questions.isEmpty then []
    else (result.questions.take 3).enum.map (fun p =>
      { message_type := "question", role := "assistant", content := p.snd
        question_number := some (p.fst + 1), marks := none })
  return { questions := result.questions
           status := result.status
           cached := result
           db := { session := some sess, messages := questionMessages } }

/-- The durable effects named by the ordering requirement of the spec, in the
order `submit_answer` performs them. -/
inductive Effect where
  | appendEvent (message_type : String)
  | updateRegistry
  | updateCache
deriving DecidableEq, Repr

/-- The response dict returned by `submit_answer` (state_manager.py lines
477-485). -/
structure SubmitResponse where
  question_number : Nat
  status : String
  current_question : Nat
  total_score : Rat
  average_score : Rat
  completed : Bool
deriving DecidableEq, Repr

/-- Outcome of a successful `submit_answer`: the response, the state
written to the in-memory cache, the resulting durable store, and the
ordered trace of durable/cache effects performed. -/
structure SubmitOutcome where
  response : SubmitResponse
  cached : InterviewState
  db : Db
  effects : List Effect
deriving DecidableEq, Repr

/-- Content stored by the feedback-message branch of `submit_answer`
(state_manager.py line 439): `result["feedback"][question_number - 1]`.
When the entry is a dict Python would store the raw dict in the text
column; both cases are unreachable (the graph always resets `feedback`,
proved below), so only the text is extracted here. -/
def feedbackValText : FeedbackVal → String
  | .str s => s
  | .item it => it.feedback

/-- `submit_answer` (state_manager.py lines 387-485; the code after the
`return` at line 485 is unreachable and not modeled).  Steps, in source
order: read the cached state or reconstruct from the store (error
`"Interview session not found"` when neither exists); pad and set the
answer slot; require the registry row (error otherwise); append and commit
the `answer` message; invoke the graph (a raised exception propagates);
write the result to the cache; conditionally append a `feedback` message;
conditionally mark the registry row completed and append a `roadmap`
message; commit. -/
def submit_answer (c : Collab) (db : Db) (cache : Option InterviewState)
    (question_number : Nat) (answer : String) : Except String SubmitOutcome := do
  let state ←
    match cache with
    | some s => Except.ok s
    | none =>
      match load_state_from_db db with
      | some s => Except.ok s
      | none => Except.error "Interview session not found"
  let answers ← setAnswer state.answers question_number answer
  let state := { state with answers := answers }
  let sess ←
    match db.session with
    | some sess => Except.ok sess
    | none => Except.error "Interview session not found in database"
  let answerMsg : ChatMessage :=
    { message_type := "answer", role := "user", content := answer
      question_number := some question_number, marks := none }
  let db1 : Db := { db with messages := db.messages ++ [answerMsg] }
  let result ← graphInvoke c state
  -- line 435: self.states[thread_id] = result  (cache write)
  let feedbackBranch :=
    ¬ result.feedback.isEmpty ∧ question_number ≤ result.feedback.length
  let db2 : Db :=
    if feedbackBranch then
      let fv := result.feedback.getD (question_number - 1) (FeedbackVal.str "")
      let mark_value :=
        if question_number ≤ result.marks.length then
          some (result.marks.getD (question_number - 1) 0)
        else none
      { db1 with messages := db1.messages ++
          [{ message_type := "feedback", role := "assistant"
             content := feedbackValText fv
             question_number := some question_number, marks := mark_value }] }
    else db1
  let completedBranch := result.status = "completed"
  let db3 : Db :=
    if completedBranch then
      let sess1 := { sess with
        status := "completed"
        total_score := some result.total_score
        average_score := some result.average_score }
      let withRoadmap :=
        if result.roadmap ≠ "" then
          db2.messages ++
            [{ message_type := "roadmap", role := "assistant"
               content := result.roadmap, question_number := none, marks := none }]
        else db2.messages
      { session := some sess1, messages := withRoadmap }
    else db2
  return { response :=
             { question_number := question_number
               status := result.status
               current_question := result.current_question
               total_score := result.total_score
               average_score := result.average_score
               completed := result.status = "completed" }
           cached := result
           db := db3
           effects :=
             [Effect.appendEvent "answer", Effect.updateCache]
               ++ (if feedbackBranch then [Effect.appendEvent "feedback"] else [])
               ++ (if completedBranch then
                     [Effect.updateRegistry]
                       ++ (if result.roadmap ≠ "" then [Effect.appendEvent "roadmap"] else [])
                   else []) }

/-- api/interview.py `start_interview` (lines 88-165), reduced to the
question-generation outcome it exposes: a raised generator exception is
caught by the generic handler of the endpoint and surfaced as a 500 error, and
fewer than 3 generated questions are rejected with a 500 error; otherwise
the generated questions (read under the correct `"question"` key) are
returned. -/
def api_start_interview (c : Collab) : Except String (List String) :=
  match generate_question c with
  | .error e => .error ("Error starting interview: " ++ e)
  | .ok gen =>
    let questions := dictGet gen "question" []
    if questions.isEmpty ∨ questions.length < 3 then
      .error "Failed to generate interview questions"
    else .ok questions

/-- A `CareerAssessment` row (models.py), as touched by
the restart endpoint in api/assessment.py.  `completed_at` presence is modeled
as a flag; wall-clock values are not modeled. -/
structure CareerAssessment where
  id : Nat
  user_id : Nat
  status : String
  skills_score : Rat
  aptitude_score : Rat
  interest_score : Rat
  overall_score : Rat
  responses : Option String
  analysis_results : Option String
  completed_at : Bool
deriving DecidableEq, Repr

/-- An `AssessmentMessage` row: the assessment-side event log entry. -/
structure AssessmentMessage where
  assessment_id : Nat
  content : String
deriving DecidableEq, Repr

/-- The durable store for the assessment subsystem. -/
structure AssessDb where
  assessments : List CareerAssessment
  messages : List AssessmentMessage
deriving DecidableEq, Repr

/-- `restart_assessment` (api/assessment.py lines 563-601): 404 when no
row matches `(assessment_id, current_user)`; otherwise resets the status, scores, responses, analysis results and completion stamp of the row, and
deletes every `AssessmentMessage` whose `assessment_id` matches
(lines 590-593), then commits. -/
def restart_assessment (db : AssessDb) (current_user_id assessment_id : Nat) :
    Except String AssessDb :=
  match db.assessments.find?
      (fun a => a.id == assessment_id && a.user_id == current_user_id) with
  | none => .error "Assessment not found"
  | some _ =>
    .ok { assessments := db.assessments.map (fun a =>
            if a.id = assessment_id ∧ a.user_id = current_user_id then
              { a with
                status := "active"
                skills_score := 0
                aptitude_score := 0
                interest_score := 0
                overall_score := 0
                responses := none
                analysis_results := none
                completed_at := false }
            else a)
          messages := db.messages.filter (fun m => ¬ m.assessment_id = assessment_id) }

/-- After the entry node: the state every successful graph invocation
produces. -/
def postStart (s : InterviewState) : InterviewState :=
  { s with
    questions := fallbackQuestions
    current_question := 0
    answers := []
    feedback := []
    marks := []
    status := "in_progress"
    chat_history :=
      ⟨"system", "Interview started for " ++ s.role ++ " position at " ++ s.company⟩
        :: fallbackQuestions.map (fun q => ChatEntry.mk "question" q) }

/-- The state `submit_answer` starts from: the cached entry or the
reconstructed state. -/
def currentState (db : Db) (cache : Option InterviewState) : Option InterviewState :=
  match cache with
  | some s => some s
  | none => load_state_from_db db

/-- The initial state built by `create_interview_session` (state_manager.py
lines 335-354) before the graph is invoked. -/
def initialState (role company resume_text : String) : InterviewState :=
  { role := role, company := company, resume_text := resume_text
    questions := [], answers := [], current_question := 0
    feedback := [], marks := [], total_score := 0, average_score := 0
    roadmap := "", status := "started", chat_history := [] }

/-- The effect ordering the spec claims for a successful Advance: some
appended events, then the registry update, then the cache update last. -/
def claimedEffectOrder (l : List Effect) : Prop :=
  ∃ ts : List String,
    l = ts.map Effect.appendEvent ++ [Effect.updateRegistry, Effect.updateCache]

/-- A collaborator whose three LLM calls all succeed. -/
def sampleCollab : Collab :=
  { genQuestions := Except.ok ["gq1", "gq2", "gq3"]
    scoreResp := fun _ => Except.ok "Feedback: solid answer\nScore: 7"
    roadmapResp := Except.ok "personalized roadmap" }

/-- A collaborator whose LLM calls all raise. -/
def cErr : Collab :=
  { genQuestions := Except.error "LLM unavailable"
    scoreResp := fun _ => Except.error "LLM unavailable"
    roadmapResp := Except.error "LLM unavailable" }

/-- A state mid-interview, with recorded answers, feedback, marks and a
roadmap, used to exercise the operations on non-trivial input. -/
def sampleState : InterviewState :=
  { role := "Engineer", company := "Acme", resume_text := "resume"
    questions := ["gq1", "gq2", "gq3"], current_question := 2
    answers := ["x", "y"], feedback := [FeedbackVal.str "f"], marks := [3]
    total_score := 3, average_score := 3, roadmap := "rd"
    status := "in_progress", chat_history := [] }

/-- An in-memory state of a completed interview session. -/
def completedState : InterviewState :=
  { role := "Engineer", company := "Acme", resume_text := "resume"
    questions := ["gq1", "gq2", "gq3"], current_question := 3
    answers := ["a1", "a2", "a3"]
    feedback := [FeedbackVal.item ⟨"f1", 7⟩, FeedbackVal.item ⟨"f2", 7⟩,
                 FeedbackVal.item ⟨"f3", 7⟩]
    marks := [7, 7, 7], total_score := 21, average_score := 7
    roadmap := "the roadmap", status := "completed", chat_history := [] }

/-- The registry row of that completed session. -/
def completedSession : InterviewSession :=
  { role := "Engineer", company := "Acme", resume_text := some "resume"
    status := "completed", total_score := some 21, average_score := some 7 }

/-- The full event log of that completed session, in `created_at` order. -/
def completedMessages : List ChatMessage :=
  [⟨"question", "assistant", "gq1", some 1, none⟩,
   ⟨"question", "assistant", "gq2", some 2, none⟩,
   ⟨"question", "assistant", "gq3", some 3, none⟩,
   ⟨"answer", "user", "a1", some 1, none⟩,
   ⟨"answer", "user", "a2", some 2, none⟩,
   ⟨"answer", "user", "a3", some 3, none⟩,
   ⟨"feedback", "assistant", "f1", some 1, some 7⟩,
   ⟨"feedback", "assistant", "f2", some 2, some 7⟩,
   ⟨"feedback", "assistant", "f3", some 3, some 7⟩,
   ⟨"roadmap", "assistant", "the roadmap", none, none⟩]

/-- Durable store of the completed session. -/
def completedDb : Db := ⟨some completedSession, completedMessages⟩

/-- What `load_state_from_db` actually rebuilds from `completedDb`. -/
def reconCompleted : InterviewState :=
  { role := "Engineer", company := "Acme", resume_text := "resume"
    questions := ["gq1", "gq2", "gq3"], current_question := 3
    answers := ["a1", "a2", "a3"]
    feedback := [FeedbackVal.str "f1", FeedbackVal.str "f2", FeedbackVal.str "f3"]
    marks := [7, 7, 7], total_score := 21, average_score := 7
    roadmap := "", status := "completed", chat_history := [] }

/-- A registry row with zero stored events (the partial-write situation of
the claim). -/
def zeroEventDb : Db :=
  ⟨some ⟨"Engineer", "Acme", some "resume", "active", none, none⟩, []⟩

/-- An assessment store with one completed assessment (id 1, owner 42) and
two logged messages for it. -/
def assessDb0 : AssessDb :=
  { assessments := [⟨1, 42, "completed", 5, 6, 7, 6, some "resp", some "analysis", true⟩]
    messages := [⟨1, "prompt event"⟩, ⟨1, "response event"⟩] }

/-- The store `restart_assessment` produces from `assessDb0`. -/
def assessDb1 : AssessDb :=
  { assessments := [⟨1, 42, "active", 0, 0, 0, 0, none, none, false⟩]
    messages := [] }

/-- The spec scenario for C2 (`kind=interview`, N=3): start a session,
then submit answers for ordinals 1, 2 and 3, threading the durable store
and the cache exactly as the endpoints do; yields the outcome of the third call. -/
def runScenario : Except String SubmitOutcome := do
  let cr ← create_interview_session sampleCollab "Engineer" "Acme" "resume"
  let o1 ← submit_answer sampleCollab cr.db (some cr.cached) 1 "a1"
  let o2 ← submit_answer sampleCollab o1.db (some o1.cached) 2 "a2"
  let o3 ← submit_answer sampleCollab o2.db (some o2.cached) 3 "a3"
  return o3

theorem graphInvoke_ok (c : Collab) (qs : List String)
    (h : c.genQuestions = Except.ok qs) (s : InterviewState) :
    graphInvoke c s = Except.ok (postStart s) := by
  obtain ⟨g, sr, rr⟩ := c
  dsimp only at h
  subst h
  rfl

theorem graphInvoke_err (c : Collab) (e : String)
    (h : c.genQuestions = Except.error e) (s : InterviewState) :
    graphInvoke c s = Except.error e := by
  obtain ⟨g, sr, rr⟩ := c
  dsimp only at h
  subst h
  rfl

theorem setAnswer_ok (l : List String) (q : Nat) (a : String) (hq : 1 ≤ q) :
    setAnswer l q a = Except.ok ((padAnswers l q).set (q - 1) a) := by
  have hlen : q ≤ (padAnswers l q).length := by
    simp [padAnswers]
    omega
  unfold setAnswer
  have hq0 : ¬ q = 0 := by omega
  simp [hq0, hlen]

theorem submit_answer_eq (c : Collab) (db : Db) (cache : Option InterviewState)
    (q : Nat) (a : String) (qs : List String) (sess : InterviewSession)
    (st : InterviewState)
    (hg : c.genQuestions = Except.ok qs) (hs : db.session = some sess)
    (hst : currentState db cache = some st) (hq : 1 ≤ q) :
    submit_answer c db cache q a = Except.ok
      { response := ⟨q, "in_progress", 0, st.total_score, st.average_score, false⟩
        cached := postStart { st with answers := (padAnswers st.answers q).set (q - 1) a }
        db := { db with messages := db.messages ++ [⟨"answer", "user", a, some q, none⟩] }
        effects := [Effect.appendEvent "answer", Effect.updateCache] } := by
  have hne : ¬ (("in_progress" : String) = "completed") := by decide
  unfold submit_answer
  rw [hs]
  cases cache with
  | some s0 =>
    simp only [currentState, Option.some.injEq] at hst
    subst hst
    simp only [bind, Except.bind, setAnswer_ok _ _ _ hq, graphInvoke_ok c qs hg]
    simp [postStart, hne, pure, Except.pure, hs]
  | none =>
    simp only [currentState] at hst
    simp only [hst, bind, Except.bind, setAnswer_ok _ _ _ hq, graphInvoke_ok c qs hg]
    simp [postStart, hne, pure, Except.pure, hs]

theorem submit_answer_cached_graph (c : Collab) (db : Db) (cache : Option InterviewState)
    (q : Nat) (a : String) (out : SubmitOutcome)
    (h : submit_answer c db cache q a = Except.ok out) :
    ∃ s, graphInvoke c s = Except.ok out.cached := by
  unfold submit_answer at h
  split at h
  next sess hsess =>
    split at h
    next s0 =>
      dsimp only [bind, Except.bind] at h
      cases hsa : setAnswer s0.answers q a with
      | error e => rw [hsa] at h; simp [Except.bind] at h
      | ok answers =>
        rw [hsa] at h
        dsimp only [Except.bind] at h
        cases hgr : graphInvoke c { s0 with answers := answers } with
        | error e => rw [hgr] at h; simp [Except.bind] at h
        | ok result =>
          rw [hgr] at h
          dsimp only [Except.bind] at h
          simp only [pure, Except.pure, Except.ok.injEq] at h
          exact ⟨_, by rw [hgr, ← h]⟩
    next hnone =>
      split at h
      next s0 hload =>
        dsimp only [bind, Except.bind] at h
        cases hsa : setAnswer s0.answers q a with
        | error e => rw [hsa] at h; simp [Except.bind] at h
        | ok answers =>
          rw [hsa] at h
          dsimp only [Except.bind] at h
          cases hgr : graphInvoke c { s0 with answers := answers } with
          | error e => rw [hgr] at h; simp [Except.bind] at h
          | ok result =>
            rw [hgr] at h
            dsimp only [Except.bind] at h
            simp only [pure, Except.pure, Except.ok.injEq] at h
            exact ⟨_, by rw [hgr, ← h]⟩
      next => simp [bind, Except.bind] at h
  next hsessnone =>
    split at h
    next s0 =>
      dsimp only [bind, Except.bind] at h
      cases hsa : setAnswer s0.answers q a with
      | error e => rw [hsa] at h; simp [Except.bind] at h
      | ok answers => rw [hsa] at h; simp [Except.bind] at h
    next hnone =>
      split at h
      next s0 hload =>
        dsimp only [bind, Except.bind] at h
        cases hsa : setAnswer s0.answers q a with
        | error e => rw [hsa] at h; simp [Except.bind] at h
        | ok answers => rw [hsa] at h; simp [Except.bind] at h
      next => simp [bind, Except.bind] at h

/-- C1: for every interview state, the routing predicate
`should_continue` returns exactly the label the spec prescribes, in the
priority order of the spec: wait-for-input when fewer than 3 answers are
recorded, else continue-to-scoring when feedback has not been computed,
else continue-to-synthesis when the summary (roadmap) is absent, else
terminal. -/
theorem should_continue_matches_routing_spec (s : InterviewState) :
    routeOfLabel (should_continue s) =
      some (routingSpec s.answers.length (!s.feedback.isEmpty) (s.roadmap ≠ "")) := by
  unfold should_continue routingSpec routeOfLabel
  by_cases h1 : s.answers.length < 3
  · simp [h1]
  · by_cases h2 : s.feedback.isEmpty
    · simp [h1, h2]
    · by_cases h3 : s.roadmap = ""
      · simp [h1, h2, h3]
      · simp [h1, h2, h3]

/-- C2 (code bug): in the spec scenario the third `SubmitAnswer` call
must return `completed = true` with a non-empty summary and the average
of the three scores; the code instead returns `completed = false`, status
`"in_progress"`, no summary (empty roadmap), and a zero aggregate,
because the graph entry node re-runs on every invocation and wipes the
recorded answers before routing (see C10), so the scoring and synthesis
stages are unreachable from `submit_answer`. -/
theorem interview_three_answers_never_completes :
    runScenario.map (fun o =>
        (o.response.completed, o.response.status, o.cached.roadmap,
         o.response.average_score, o.cached.answers))
      = Except.ok (false, "in_progress", "", 0, []) := by
  rfl

/-- C3 counterexample: submitting ordinal 5 (beyond the 3 prompts) on
a session already completed is not rejected: the call succeeds and the
event log is mutated (the answer event is appended). -/
theorem submit_answer_out_of_range_accepted_cex :
    (submit_answer sampleCollab completedDb (some completedState) 5 "late").map
        (fun o => o.db.messages)
      = Except.ok (completedMessages ++ [⟨"answer", "user", "late", some 5, none⟩]) := by
  rfl

/-- C3 amended: `submit_answer` performs no ordinal-range or
completion-status validation.  Whenever the registry row exists, the
question generator call succeeds, a starting state is available (cached or
reconstructed) and the ordinal is at least 1, the submission is accepted —
also for ordinals beyond the prompt count (the answers list is padded with
empty strings up to the ordinal) and for sessions already completed — and
the answer event is appended to the log; the only caller-visible
validation error is session-not-found. -/
theorem submit_answer_no_validation (c : Collab) (db : Db)
    (cache : Option InterviewState) (q : Nat) (a : String) (qs : List String)
    (sess : InterviewSession) (st : InterviewState)
    (hg : c.genQuestions = Except.ok qs) (hs : db.session = some sess)
    (hst : currentState db cache = some st) (hq : 1 ≤ q) :
    submit_answer c db cache q a = Except.ok
      { response := ⟨q, "in_progress", 0, st.total_score, st.average_score, false⟩
        cached := postStart { st with answers := (padAnswers st.answers q).set (q - 1) a }
        db := { db with messages := db.messages ++ [⟨"answer", "user", a, some q, none⟩] }
        effects := [Effect.appendEvent "answer", Effect.updateCache] } :=
  submit_answer_eq c db cache q a qs sess st hg hs hst hq

/-- Witness for C3 at concrete inputs: the completed session accepts
ordinal 5. -/
theorem submit_answer_no_validation_witness :
    submit_answer sampleCollab completedDb (some completedState) 5 "late" = Except.ok
      { response := ⟨5, "in_progress", 0, completedState.total_score,
                     completedState.average_score, false⟩
        cached := postStart
          { completedState with
            answers := (padAnswers completedState.answers 5).set (5 - 1) "late" }
        db := { completedDb with
                messages := completedDb.messages ++ [⟨"answer", "user", "late", some 5, none⟩] }
        effects := [Effect.appendEvent "answer", Effect.updateCache] } :=
  submit_answer_no_validation sampleCollab completedDb (some completedState) 5 "late"
    ["gq1", "gq2", "gq3"] completedSession completedState rfl rfl rfl (by decide)

/-- C4 counterexample: reconstructing the fully completed session from
its event log yields a state whose `status` is the stored registry value
`"completed"` while the routing predicate on that very state says the
synthesis stage is still pending (`"generate_roadmap"`), and whose summary
has been dropped (`roadmap = ""` although a roadmap event exists in the
log) — so status is read from a redundantly stored field, not re-derived,
and the reconstructed state is not the state the live pipeline produced. -/
theorem reconstructed_status_not_rederived_cex :
    load_state_from_db completedDb = some reconCompleted ∧
    reconCompleted.status = "completed" ∧
    should_continue reconCompleted = "generate_roadmap" ∧
    reconCompleted.roadmap = "" := by
  refine ⟨?_, rfl, rfl, rfl⟩
  rfl

/-- C4 amended: the State Reconstructor does not re-evaluate the
routing predicate: whenever it succeeds, the reconstructed `status` is
copied verbatim from the stored registry row and the reconstructed
summary (`roadmap`) is always empty (roadmap events are ignored by the
replay fold), so the reconstructed state can disagree with what the live
pipeline produced. -/
theorem load_state_copies_status_and_drops_roadmap (db : Db)
    (sess : InterviewSession) (st : InterviewState)
    (hs : db.session = some sess) (h : load_state_from_db db = some st) :
    st.status = sess.status ∧ st.roadmap = "" := by
  unfold load_state_from_db at h
  rw [hs] at h
  simp only [Option.map, Option.some.injEq] at h
  subst h
  exact ⟨rfl, rfl⟩

/-- Witness for C4 at concrete inputs. -/
theorem load_state_copies_status_and_drops_roadmap_witness :
    reconCompleted.status = completedSession.status ∧ reconCompleted.roadmap = "" :=
  load_state_copies_status_and_drops_roadmap completedDb completedSession reconCompleted
    rfl (by rfl)

/-- C5 counterexample: the restart operation deletes the previously
appended events — after restarting assessment 1, a direct log query
returns zero messages although two had been appended. -/
theorem restart_deletes_events_cex :
    (restart_assessment assessDb0 42 1).map AssessDb.messages = Except.ok [] ∧
    assessDb0.messages.length = 2 := by
  exact ⟨rfl, rfl⟩

/-- C5 amended: `restart_assessment` resets the matching assessment
row (status, all scores, responses, analysis results, completion stamp)
and deletes every previously appended message of that assessment from
the log; prior events are not retrievable afterwards. -/
theorem restart_resets_and_deletes_messages (db : AssessDb) (uid aid : Nat)
    (db' : AssessDb) (h : restart_assessment db uid aid = Except.ok db') :
    db' = { assessments := db.assessments.map (fun a =>
              if a.id = aid ∧ a.user_id = uid then
                { a with
                  status := "active", skills_score := 0, aptitude_score := 0
                  interest_score := 0, overall_score := 0
                  responses := none, analysis_results := none
                  completed_at := false }
              else a)
            messages := db.messages.filter (fun m => ¬ m.assessment_id = aid) } := by
  unfold restart_assessment at h
  split at h
  · cases h
  · cases h
    rfl

/-- Witness for C5 at concrete inputs. -/
theorem restart_resets_and_deletes_messages_witness :
    assessDb1 = { assessments := assessDb0.assessments.map (fun a =>
                    if a.id = 1 ∧ a.user_id = 42 then
                      { a with
                        status := "active", skills_score := 0, aptitude_score := 0
                        interest_score := 0, overall_score := 0
                        responses := none, analysis_results := none
                        completed_at := false }
                    else a)
                  messages := assessDb0.messages.filter (fun m => ¬ m.assessment_id = 1) } :=
  restart_resets_and_deletes_messages assessDb0 42 1 assessDb1 (by rfl)

/-- C6 counterexample: with the registry row present and zero events,
reconstruction does not report a consistency error — it silently builds a
repaired state with three placeholder questions. -/
theorem load_state_zero_events_repairs_cex :
    load_state_from_db zeroEventDb = some
      { role := "Engineer", company := "Acme", resume_text := "resume"
        questions := ["Interview question 1", "Interview question 2",
                      "Interview question 3"]
        current_question := 0, answers := [], feedback := [], marks := []
        total_score := 0, average_score := 0, roadmap := ""
        status := "active", chat_history := [] } := by
  rfl

/-- C6 amended: for every registry row with zero stored events,
`_load_state_from_db` silently returns a repaired state — three
placeholder questions, empty answers/feedback/marks, status copied from
the row — instead of reporting a consistency error (the function has no
error outcome for this situation at all). -/
theorem load_state_zero_events_placeholder (sess : InterviewSession) :
    load_state_from_db ⟨some sess, []⟩ = some
      { role := sess.role, company := sess.company
        resume_text := sess.resume_text.getD ""
        questions := ["Interview question 1", "Interview question 2",
                      "Interview question 3"]
        current_question := 0, answers := [], feedback := [], marks := []
        total_score := sess.total_score.getD 0
        average_score := sess.average_score.getD 0
        roadmap := "", status := sess.status, chat_history := [] } := by
  have hpad : padQuestions [] =
      ["Interview question 1", "Interview question 2", "Interview question 3"] := by
    decide
  unfold load_state_from_db
  dsimp only [Option.map, List.foldl]
  rw [hpad]

/-- C7 counterexample: with a generator that raises, `StartSession`
does not return the 3 fallback prompts — the exception propagates and the
operation fails. -/
theorem start_session_generator_raises_cex :
    create_interview_session cErr "Engineer" "Acme" "resume"
      = Except.error "LLM unavailable" := by
  rfl

/-- C7 amended: when the question-generation call returns (with any
list of questions), `create_interview_session` returns exactly the 3
non-empty fallback prompts (the `"question"` result key of the generator never
matches the `"questions"` lookup, so the fallback is always used); but
when the generator raises, the exception propagates and `StartSession`
fails instead of falling back, and the API-level start endpoint likewise
surfaces an error. -/
theorem start_session_fallback_and_raise :
    (∀ (c : Collab) (role co rt : String) (qs : List String),
       c.genQuestions = Except.ok qs →
       create_interview_session c role co rt = Except.ok
         { questions := fallbackQuestions
           status := "in_progress"
           cached := postStart (initialState role co rt)
           db := { session := some ⟨role, co, some rt, "active", none, none⟩
                   messages :=
                     [⟨"question", "assistant", "Tell me about yourself.", some 1, none⟩,
                      ⟨"question", "assistant", "What are your strengths?", some 2, none⟩,
                      ⟨"question", "assistant", "Why do you want this role?", some 3, none⟩] } }) ∧
    (∀ (c : Collab) (role co rt e : String), c.genQuestions = Except.error e →
       create_interview_session c role co rt = Except.error e) ∧
    (∀ (c : Collab) (e : String), c.genQuestions = Except.error e →
       api_start_interview c = Except.error ("Error starting interview: " ++ e)) ∧
    fallbackQuestions.length = 3 ∧
    fallbackQuestions.all (fun s => !s.isEmpty) = true := by
  refine ⟨?_, ?_, ?_, rfl, rfl⟩
  · intro c role co rt qs hg
    unfold create_interview_session
    simp only [bind, Except.bind, graphInvoke_ok c qs hg]
    rfl
  · intro c role co rt e hg
    unfold create_interview_session
    simp only [bind, Except.bind, graphInvoke_err c e hg]
  · intro c e hg
    obtain ⟨g, sr, rr⟩ := c
    dsimp only at hg
    subst hg
    rfl

/-- Witness for C7 at concrete inputs. -/
theorem start_session_fallback_and_raise_witness :
    create_interview_session sampleCollab "Dev" "Initech" "cv" = Except.ok
      { questions := fallbackQuestions
        status := "in_progress"
        cached := postStart (initialState "Dev" "Initech" "cv")
        db := { session := some ⟨"Dev", "Initech", some "cv", "active", none, none⟩
                messages :=
                  [⟨"question", "assistant", "Tell me about yourself.", some 1, none⟩,
                   ⟨"question", "assistant", "What are your strengths?", some 2, none⟩,
                   ⟨"question", "assistant", "Why do you want this role?", some 3, none⟩] } } :=
  start_session_fallback_and_raise.1 sampleCollab "Dev" "Initech" "cv"
    ["gq1", "gq2", "gq3"] rfl

/-- C8 counterexample: a successful `submit_answer` performs the
effects `[append answer event, update cache]` — the registry is never
updated and the cache write is not last relative to the later commit section of the code — so the claimed ordering (events, then registry, then
cache last) does not hold. -/
theorem submit_effects_order_cex :
    (submit_answer sampleCollab completedDb (some completedState) 1 "a1").map
        SubmitOutcome.effects
      = Except.ok [Effect.appendEvent "answer", Effect.updateCache] ∧
    ¬ claimedEffectOrder [Effect.appendEvent "answer", Effect.updateCache] := by
  constructor
  · rfl
  · rintro ⟨ts, hts⟩
    cases ts with
    | nil => simp at hts
    | cons t ts =>
      have hlen := congrArg List.length hts
      simp at hlen

/-- C8 amended: on every successful answer submission (generator call
succeeding, registry row present, ordinal at least 1), the durable/cache
effects performed are exactly: append the answer event, then update the
in-memory cache.  No registry update and no further event append occurs
(the feedback/completion branches that would follow the cache write are
unreachable, because the graph wipes feedback and never reaches
completion). -/
theorem submit_effects_event_then_cache (c : Collab) (db : Db)
    (cache : Option InterviewState) (q : Nat) (a : String) (qs : List String)
    (sess : InterviewSession) (st : InterviewState)
    (hg : c.genQuestions = Except.ok qs) (hs : db.session = some sess)
    (hst : currentState db cache = some st) (hq : 1 ≤ q) :
    (submit_answer c db cache q a).map SubmitOutcome.effects
      = Except.ok [Effect.appendEvent "answer", Effect.updateCache] := by
  rw [submit_answer_eq c db cache q a qs sess st hg hs hst hq]
  rfl

/-- Witness for C8 at concrete inputs. -/
theorem submit_effects_event_then_cache_witness :
    (submit_answer sampleCollab completedDb (some completedState) 2 "b").map
        SubmitOutcome.effects
      = Except.ok [Effect.appendEvent "answer", Effect.updateCache] :=
  submit_effects_event_then_cache sampleCollab completedDb (some completedState) 2 "b"
    ["gq1", "gq2", "gq3"] completedSession completedState rfl rfl rfl (by decide)

/-- C9: for every prompt/answer pair and every collaborator outcome,
the per-answer score is an integer in [0, 10]; and when the scoring
collaborator fails on a real answer, the function returns the neutral
default score 5 with the generic feedback string instead of propagating
the error. -/
theorem generate_feedback_score_contract :
    (∀ (llm : Except String String) (q a r co : String),
       0 ≤ (generate_feedback llm q a r co).marks ∧
         (generate_feedback llm q a r co).marks ≤ 10) ∧
    (∀ (e q a r co : String), ¬ q = "" → ¬ a = "" → ¬ a = "[No answer provided]" →
       generate_feedback (Except.error e) q a r co =
         ⟨"An error occurred while generating feedback.", 5⟩) := by
  constructor
  · intro llm q a r co
    have hform : (generate_feedback llm q a r co).marks = 0 ∨
        (generate_feedback llm q a r co).marks = 5 ∨
        ∃ v : Int, (generate_feedback llm q a r co).marks = min 10 (max 1 v) := by
      unfold generate_feedback
      split
      · left; rfl
      · cases llm with
        | error e => right; left; rfl
        | ok content =>
          dsimp only
          split
          · split
            · right; left; rfl
            · split
              · right; right; exact ⟨_, rfl⟩
              · right; left; rfl
          · right; left; rfl
    rcases hform with h | h | ⟨v, h⟩ <;> rw [h]
    · exact ⟨le_refl 0, by norm_num⟩
    · exact ⟨by norm_num, by norm_num⟩
    · exact ⟨le_min (by norm_num)
          (le_trans (by norm_num : (0 : Int) ≤ 1) (le_max_left 1 v)),
        min_le_left _ _⟩
  · intro e q a r co hq ha ha2
    unfold generate_feedback
    simp [hq, ha, ha2]

/-- Witness for C9 at concrete inputs. -/
theorem generate_feedback_score_contract_witness :
    (0 ≤ (generate_feedback (Except.ok "Feedback: solid answer\nScore: 7")
            "gq1" "a1" "Engineer" "Acme").marks ∧
       (generate_feedback (Except.ok "Feedback: solid answer\nScore: 7")
            "gq1" "a1" "Engineer" "Acme").marks ≤ 10) ∧
    generate_feedback (Except.error "LLM unavailable") "gq1" "a1" "Engineer" "Acme" =
      ⟨"An error occurred while generating feedback.", 5⟩ :=
  ⟨generate_feedback_score_contract.1 (Except.ok "Feedback: solid answer\nScore: 7")
      "gq1" "a1" "Engineer" "Acme",
   generate_feedback_score_contract.2 "LLM unavailable" "gq1" "a1" "Engineer" "Acme"
     (by decide) (by decide) (by decide)⟩

/-- C10: every invocation of the compiled interview graph — including
the one performed by `submit_answer` after an answer is recorded — begins
at the `start_interview` entry node, which unconditionally resets the
`answers`, `feedback` and `marks` fields to empty lists and regenerates
the question list (always producing the fallback list, because the
`"question"` result key of the generator never matches the `"questions"`
lookup), regardless of the contents of the input state. -/
theorem graph_entry_resets_state :
    (∀ (c : Collab) (s s1 : InterviewState), graphInvoke c s = Except.ok s1 →
       s1.answers = [] ∧ s1.feedback = [] ∧ s1.marks = [] ∧
         s1.questions = fallbackQuestions ∧ s1.status = "in_progress") ∧
    (∀ (c : Collab) (db : Db) (cache : Option InterviewState) (q : Nat) (a : String)
       (out : SubmitOutcome), submit_answer c db cache q a = Except.ok out →
       out.cached.answers = [] ∧ out.cached.feedback = [] ∧ out.cached.marks = [] ∧
         out.cached.questions = fallbackQuestions ∧ out.cached.status = "in_progress") := by
  have part1 : ∀ (c : Collab) (s s1 : InterviewState), graphInvoke c s = Except.ok s1 →
      s1.answers = [] ∧ s1.feedback = [] ∧ s1.marks = [] ∧
        s1.questions = fallbackQuestions ∧ s1.status = "in_progress" := by
    intro c s s1 h
    cases hg : c.genQuestions with
    | error e => rw [graphInvoke_err c e hg] at h; cases h
    | ok qs =>
      rw [graphInvoke_ok c qs hg] at h
      cases h
      simp [postStart]
  refine ⟨part1, ?_⟩
  intro c db cache q a out h
  obtain ⟨s, hs⟩ := submit_answer_cached_graph c db cache q a out h
  exact part1 c s out.cached hs

/-- Witness for C10 at concrete inputs. -/
theorem graph_entry_resets_state_witness :
    (postStart sampleState).answers = [] ∧ (postStart sampleState).feedback = [] ∧
      (postStart sampleState).marks = [] ∧
      (postStart sampleState).questions = fallbackQuestions ∧
      (postStart sampleState).status = "in_progress" :=
  graph_entry_resets_state.1 sampleCollab sampleState (postStart sampleState)
    (graphInvoke_ok sampleCollab ["gq1", "gq2", "gq3"] rfl sampleState)

end CareerAdvisor
